import Mathlib

/-!
Verification of the Celestial Lighting Decision Engine
(`appdaemon/apps/celestial.py`).

The Python source computes over IEEE floats; we model the computation over
the real numbers, with Python's `int(...)` truncation, `round(...)`
(half-to-even) and `%` (floored modulus) made explicit.  Fixtures are the
insertion-ordered `light_directions` dict, modelled as an association list
of entity id and azimuth.  Service calls (`light/turn_on`, `light/turn_off`)
are modelled by the per-fixture target state they establish; the source's
"skip `turn_off` when the fixture is already off" check is an idempotent
suppression that does not change the resulting target state.  The optional
real-time weather/humidity colour hints (`get_realtime_sun_color`,
`get_realtime_moon_color`) are external sensor reads and are modelled as
absent, so the deterministic fallback curves apply.
-/

namespace Celestial

noncomputable section

/-- Python `int(x)` on a float: truncation toward zero. -/
def pyInt (x : ℝ) : ℤ := if 0 ≤ x then ⌊x⌋ else ⌈x⌉

/-- Python `round(x)` on a float: round half to even. -/
def pyRound (x : ℝ) : ℤ :=
  if Int.fract x = 1 / 2 then 2 * ⌊x / 2 + 1 / 2⌋ else ⌊x + 1 / 2⌋

/-- Python `x % y` on floats (floored modulus, for positive `y`). -/
def pyMod (x y : ℝ) : ℝ := x - y * ⌊x / y⌋

/-- `calculate_azimuth_alignment` (celestial.py lines 107-127): wrap the
absolute azimuth difference into `[0, 180]`, then apply the raised cosine
`max 0 ((cos (radians diff) + 1) / 2)`. -/
def calculate_azimuth_alignment (light_azimuth celestial_azimuth : ℝ) : ℝ :=
  let diff0 := |light_azimuth - celestial_azimuth|
  let diff := if diff0 > 180 then 360 - diff0 else diff0
  max 0 ((Real.cos (diff * Real.pi / 180) + 1) / 2)

/-- `calculate_sun_brightness` (celestial.py lines 310-321): clamp elevation
to `[-10, 90]`; 20 percent at or below the horizon, else a linear ramp from
20 to 100 percent over `(0, 90]`. -/
def calculate_sun_brightness (elevation : ℝ) : ℝ :=
  let e := max (-10) (min 90 elevation)
  if e ≤ 0 then 20.0 else 20 + 80 * (e / 90)

/-- `calculate_sun_color_temperature` (celestial.py lines 281-308): clamp
elevation to `[-10, 90]`, four-segment piecewise kelvin ramp, final clamp to
`[2000, 6500]`. -/
def calculate_sun_color_temperature (elevation : ℝ) : ℤ :=
  let e := max (-10) (min 90 elevation)
  let kelvin : ℤ :=
    if e < 0 then 2000
    else if e < 5 then pyInt (2000 + e / 5 * 1000)
    else if e < 15 then pyInt (3000 + (e - 5) / 10 * 1000)
    else if e < 45 then pyInt (4000 + (e - 15) / 30 * 1500)
    else pyInt (5500 + (e - 45) / 45 * 1000)
  min 6500 (max 2000 kelvin)

end

/-- Perfect alignment at zero separation. -/
lemma alignment_self (a : ℝ) : calculate_azimuth_alignment a a = 1 := by
  have hmax : (0 : ℝ) ⊔ 1 = 1 := max_eq_right (by norm_num)
  simp only [calculate_azimuth_alignment, sub_self, abs_zero]
  norm_num [Real.cos_zero, hmax]

/-- At 60 degrees separation the raised cosine gives exactly 3/4. -/
lemma alignment_of_abs_sixty (a b : ℝ) (h : |a - b| = 60) :
    calculate_azimuth_alignment a b = 3 / 4 := by
  simp only [calculate_azimuth_alignment, h]
  rw [if_neg (by norm_num)]
  have h60 : (60 : ℝ) * Real.pi / 180 = Real.pi / 3 := by ring
  rw [h60, Real.cos_pi_div_three]
  rw [max_eq_right (by norm_num : (0:ℝ) ≤ (1 / 2 + 1) / 2)]
  norm_num

/-- Claim C3: the azimuth alignment is 1 at zero separation, 0 at the
antipode `(a + 180) mod 360`, symmetric in its two arguments, always in
`[0, 1]`, and follows a raised-cosine falloff: at 60 degrees separation it
is `3/4`, not the `2/3` a linear falloff would give. -/
theorem claim_C3 :
    (∀ a : ℝ, calculate_azimuth_alignment a a = 1) ∧
    (∀ a : ℝ, 0 ≤ a → a < 360 →
      calculate_azimuth_alignment a (pyMod (a + 180) 360) = 0) ∧
    (∀ a b : ℝ, calculate_azimuth_alignment a b = calculate_azimuth_alignment b a) ∧
    (∀ a b : ℝ, 0 ≤ calculate_azimuth_alignment a b ∧ calculate_azimuth_alignment a b ≤ 1) ∧
    calculate_azimuth_alignment 0 60 = 3 / 4 ∧ (3 / 4 : ℝ) ≠ 1 - 60 / 180 := by
  refine ⟨alignment_self, ?_, ?_, ?_, ?_, by norm_num⟩
  · intro a ha0 ha360
    have key : ∀ x : ℝ, |x - (x - 180)| = 180 := by
      intro x; rw [sub_sub_cancel]; norm_num
    have hcos : Real.cos ((180 : ℝ) * Real.pi / 180) = -1 := by
      have : (180 : ℝ) * Real.pi / 180 = Real.pi := by ring
      rw [this, Real.cos_pi]
    rcases lt_or_le a 180 with hlt | hge
    · have hfl : ⌊(a + 180) / 360⌋ = 0 := by
        rw [Int.floor_eq_zero_iff]
        constructor
        · positivity
        · rw [div_lt_one (by norm_num)]; linarith
      have hmod : pyMod (a + 180) 360 = a + 180 := by
        simp [pyMod, hfl]
      rw [hmod]
      have hdiff : |a - (a + 180)| = 180 := by
        have : a - (a + 180) = -180 := by ring
        rw [this]; norm_num
      simp only [calculate_azimuth_alignment, hdiff]
      rw [if_neg (by norm_num)]
      rw [hcos]
      rw [max_eq_left (by norm_num : (-1 + 1) / 2 ≤ (0:ℝ))]
  -- second branch: a in [180, 360)
    · have hfl : ⌊(a + 180) / 360⌋ = 1 := by
        rw [Int.floor_eq_iff]
        constructor
        · rw [le_div_iff (by norm_num)]; push_cast; linarith
        · rw [div_lt_iff (by norm_num)]; push_cast; linarith
      have hmod : pyMod (a + 180) 360 = a - 180 := by
        simp only [pyMod, hfl]
        push_cast; ring
      rw [hmod]
      have hdiff : |a - (a - 180)| = 180 := key a
      simp only [calculate_azimuth_alignment, hdiff]
      rw [if_neg (by norm_num)]
      rw [hcos]
      rw [max_eq_left (by norm_num : (-1 + 1) / 2 ≤ (0:ℝ))]
  · intro a b
    simp only [calculate_azimuth_alignment, abs_sub_comm a b]
  · intro a b
    constructor
    · exact le_max_left _ _
    · apply max_le (by norm_num)
      have := Real.cos_le_one
        ((if |a - b| > 180 then 360 - |a - b| else |a - b|) * Real.pi / 180)
      linarith
  · exact alignment_of_abs_sixty 0 60 (by norm_num)

/-- Witness for claim C3 at `a = 90`: the fixture opposite the celestial
azimuth gets alignment 0. -/
theorem claim_C3_witness :
    calculate_azimuth_alignment 90 (pyMod (90 + 180) 360) = 0 :=
  claim_C3.2.1 90 (by norm_num) (by norm_num)

/-- Claim C6: for every real elevation, including values far outside the
clamp range, the sun colour temperature is an integer in `[2000, 6500]`. -/
theorem claim_C6 (e : ℝ) :
    2000 ≤ calculate_sun_color_temperature e ∧
    calculate_sun_color_temperature e ≤ 6500 := by
  simp only [calculate_sun_color_temperature]
  exact ⟨le_min (by norm_num) (le_max_left _ _), min_le_left _ _⟩

/-- Claim C7: `calculate_sun_brightness` is non-decreasing in elevation over
`[-10, 90]` and returns exactly 20 for every elevation at most 0. -/
theorem claim_C7 (a b : ℝ) (ha : -10 ≤ a) (hb : b ≤ 90) (hab : a ≤ b) :
    calculate_sun_brightness a ≤ calculate_sun_brightness b ∧
    ∀ e : ℝ, e ≤ 0 → calculate_sun_brightness e = 20 := by
  constructor
  · simp only [calculate_sun_brightness]
    have hc : max (-10 : ℝ) (min 90 a) ≤ max (-10) (min 90 b) :=
      max_le_max le_rfl (min_le_min le_rfl hab)
    have hx0 : (-10 : ℝ) ≤ max (-10) (min 90 a) := le_max_left _ _
    split_ifs with h1 h2 h2
    · norm_num
    · have hy : ¬ max (-10 : ℝ) (min 90 b) ≤ 0 := h2
      push_neg at hy
      norm_num
      linarith
    · exfalso; exact h1 (le_trans hc h2)
    · linarith
  · intro e he
    have h1 : min (90 : ℝ) e = e := min_eq_right (le_trans he (by norm_num))
    simp only [calculate_sun_brightness, h1]
    rw [if_pos (max_le (by norm_num) he)]
    norm_num

/-- Witness for claim C7: at elevations 0 and 45 the brightness is
non-decreasing, and at -5 it is exactly 20. -/
theorem claim_C7_witness :
    calculate_sun_brightness 0 ≤ calculate_sun_brightness 45 ∧
    calculate_sun_brightness (-5) = 20 := by
  obtain ⟨h1, h2⟩ := claim_C7 0 45 (by norm_num) (by norm_num) (by norm_num)
  exact ⟨h1, h2 (-5) (by norm_num)⟩

noncomputable section

/-- Colour payload of a `light/turn_on` service call. -/
inductive ColorSpec
  | kelvin (k : ℤ)
  | rgb (r g b : ℤ)
  deriving DecidableEq

/-- Per-fixture target state established by one decision cycle. -/
inductive LightTarget
  | on (color : ColorSpec) (brightness : ℤ)
  | off
  deriving DecidableEq

/-- The base brightness computed in `update_sun_lighting` (lines 186-190):
`int(calculate_sun_brightness(e) * 255 / 100)` followed by
`int(base_brightness * dimmer_level)`. -/
def sun_base_brightness (elevation dimmer : ℝ) : ℤ :=
  pyInt ((pyInt (calculate_sun_brightness elevation * 255 / 100) : ℝ) * dimmer)

/-- `update_sun_lighting` (lines 177-224), weather colour hint absent: each
fixture gets brightness `base * alignment`; it ends on with the truncated
brightness and the kelvin colour iff that brightness is positive, else
off. -/
def update_sun_lighting (lights : List (String × ℝ)) (elevation azimuth dimmer : ℝ) :
    List (String × LightTarget) :=
  let kelvin := calculate_sun_color_temperature elevation
  let base := sun_base_brightness elevation dimmer
  lights.map fun p =>
    let brightness := (base : ℝ) * calculate_azimuth_alignment p.2 azimuth
    (p.1,
      if brightness > 0 then LightTarget.on (ColorSpec.kelvin kelvin) (pyInt brightness)
      else LightTarget.off)

/-- Modelled from the spec words of claim C1: the claimed base brightness
`round(SunBrightnessPercent(elevation) * 255/100 * brightnessMultiplier)`. -/
def claimedBaseBrightness (elevation mult : ℝ) : ℤ :=
  pyRound (calculate_sun_brightness elevation * 255 / 100 * mult)

/-- Modelled from the amended claim C1: per-fixture sun target with the base
brightness obtained by truncating twice (`int(int(pct * 255/100) * mult)`),
brightness `base * alignment`, on with the truncated brightness iff it is
positive. -/
def amendedSunTarget (elevation azimuth mult : ℝ) (p : String × ℝ) :
    String × LightTarget :=
  let base := pyInt ((pyInt (calculate_sun_brightness elevation * 255 / 100) : ℝ) * mult)
  let b := (base : ℝ) * calculate_azimuth_alignment p.2 azimuth
  (p.1,
    if b > 0 then
      LightTarget.on (ColorSpec.kelvin (calculate_sun_color_temperature elevation)) (pyInt b)
    else LightTarget.off)

end

/-- Truncation of an integer is that integer. -/
lemma pyInt_intCast (n : ℤ) : pyInt (n : ℝ) = n := by
  unfold pyInt
  split_ifs <;> simp

/-- Evaluation rule for `pyInt` on a nonnegative value. -/
lemma pyInt_eq (x : ℝ) (n : ℤ) (h0 : 0 ≤ x) (h1 : (n : ℝ) ≤ x) (h2 : x < n + 1) :
    pyInt x = n := by
  unfold pyInt
  rw [if_pos h0, Int.floor_eq_iff]
  exact ⟨h1, h2⟩

/-- Evaluation rule for `pyRound` away from a half-integer. -/
lemma pyRound_eq (x : ℝ) (n : ℤ) (hf : Int.fract x ≠ 1 / 2)
    (h1 : (n : ℝ) ≤ x + 1 / 2) (h2 : x + 1 / 2 < n + 1) : pyRound x = n := by
  unfold pyRound
  rw [if_neg hf, Int.floor_eq_iff]
  exact ⟨h1, h2⟩

/-- Rounding an integer is that integer. -/
lemma pyRound_intCast (n : ℤ) : pyRound (n : ℝ) = n := by
  apply pyRound_eq
  · rw [Int.fract_intCast]; norm_num
  · linarith
  · linarith

/-- The sun brightness percentage at elevation 10 is 260/9 = 28.888... . -/
lemma sun_brightness_ten : calculate_sun_brightness 10 = 260 / 9 := by
  have h1 : min (90 : ℝ) 10 = 10 := min_eq_right (by norm_num)
  have h2 : max (-10 : ℝ) 10 = 10 := max_eq_right (by norm_num)
  simp only [calculate_sun_brightness, h1, h2]
  rw [if_neg (by norm_num)]
  norm_num

/-- Claim C1 is false as stated: at elevation 10 with multiplier 1 and a
fixture at azimuth 90 facing the sun at azimuth 90, the code truncates
`28.888% * 255/100 = 73.666` twice and commands brightness 73, while the
claimed formula `round(28.888 * 255/100 * 1)` gives 74. -/
theorem claim_C1_counterexample :
    update_sun_lighting [("east", 90)] 10 90 1
      = [("east", LightTarget.on (ColorSpec.kelvin 3500) 73)] ∧
    claimedBaseBrightness 10 1 = 74 := by
  have hpct : calculate_sun_brightness 10 * 255 / 100 = 221 / 3 := by
    rw [sun_brightness_ten]; norm_num
  have hin : pyInt (calculate_sun_brightness 10 * 255 / 100) = 73 := by
    rw [hpct]; exact pyInt_eq _ 73 (by norm_num) (by norm_num) (by norm_num)
  have hbase : sun_base_brightness 10 1 = 73 := by
    unfold sun_base_brightness
    rw [hin]; rw [mul_one]; exact pyInt_intCast 73
  have hkelvin : calculate_sun_color_temperature 10 = 3500 := by
    have h1 : min (90 : ℝ) 10 = 10 := min_eq_right (by norm_num)
    have h2 : max (-10 : ℝ) 10 = 10 := max_eq_right (by norm_num)
    simp only [calculate_sun_color_temperature, h1, h2]
    rw [if_neg (by norm_num), if_neg (by norm_num), if_pos (by norm_num)]
    have : (3000 : ℝ) + (10 - 5) / 10 * 1000 = ((3500 : ℤ) : ℝ) := by norm_num
    rw [this, pyInt_intCast]
    norm_num
  constructor
  · simp only [update_sun_lighting, List.map_cons, List.map_nil]
    rw [hbase, hkelvin, alignment_self, mul_one]
    rw [if_pos (by norm_num)]
    have : ((73 : ℤ) : ℝ) = ((73 : ℤ) : ℝ) := rfl
    rw [pyInt_intCast]
  · unfold claimedBaseBrightness
    rw [hpct, mul_one]
    apply pyRound_eq
    · have : Int.fract ((221 : ℝ) / 3) = 221 / 3 - 73 := by
        unfold Int.fract
        norm_num
      rw [this]; norm_num
    · norm_num
    · norm_num

/-- Claim C1 amended: the base brightness is the double truncation
`int(int(pct * 255/100) * multiplier)` (not a single rounding); each
fixture's brightness is that base times its alignment, and the fixture is
commanded on with the truncated brightness iff the brightness is positive,
else off; the reference scenario (fixture at 90, sun azimuth 90, elevation
45, multiplier 1) yields alignment 1 and brightness exactly 153. -/
theorem claim_C1_amended (lights : List (String × ℝ)) (elevation azimuth mult : ℝ)
    (h1 : 0.1 ≤ mult) (h2 : mult ≤ 1) :
    update_sun_lighting lights elevation azimuth mult
      = lights.map (amendedSunTarget elevation azimuth mult) ∧
    calculate_azimuth_alignment 90 90 = 1 ∧
    update_sun_lighting [("east", 90)] 45 90 1
      = [("east", LightTarget.on (ColorSpec.kelvin 5500) 153)] := by
  refine ⟨rfl, alignment_self 90, ?_⟩
  have hpct : calculate_sun_brightness 45 = 60 := by
    have hm1 : min (90 : ℝ) 45 = 45 := min_eq_right (by norm_num)
    have hm2 : max (-10 : ℝ) 45 = 45 := max_eq_right (by norm_num)
    simp only [calculate_sun_brightness, hm1, hm2]
    rw [if_neg (by norm_num)]
    norm_num
  have hin : pyInt (calculate_sun_brightness 45 * 255 / 100) = 153 := by
    rw [hpct]
    have : (60 : ℝ) * 255 / 100 = ((153 : ℤ) : ℝ) := by norm_num
    rw [this, pyInt_intCast]
  have hbase : sun_base_brightness 45 1 = 153 := by
    unfold sun_base_brightness
    rw [hin, mul_one, pyInt_intCast]
  have hkelvin : calculate_sun_color_temperature 45 = 5500 := by
    have hm1 : min (90 : ℝ) 45 = 45 := min_eq_right (by norm_num)
    have hm2 : max (-10 : ℝ) 45 = 45 := max_eq_right (by norm_num)
    simp only [calculate_sun_color_temperature, hm1, hm2]
    rw [if_neg (by norm_num), if_neg (by norm_num), if_neg (by norm_num),
      if_neg (by norm_num)]
    have : (5500 : ℝ) + (45 - 45) / 45 * 1000 = ((5500 : ℤ) : ℝ) := by norm_num
    rw [this, pyInt_intCast]
    norm_num
  simp only [update_sun_lighting, List.map_cons, List.map_nil]
  rw [hbase, hkelvin, alignment_self, mul_one]
  rw [if_pos (by norm_num), pyInt_intCast]

/-- Witness for claim C1 (amended) at multiplier 1: the reference scenario
commands the east fixture to 153 at 5500 K. -/
theorem claim_C1_witness :
    (0.1 : ℝ) ≤ 1 ∧
    update_sun_lighting [("east", 90)] 45 90 1
      = [("east", LightTarget.on (ColorSpec.kelvin 5500) 153)] :=
  ⟨by norm_num, (claim_C1_amended [] 45 90 1 (by norm_num) (by norm_num)).2.2⟩

noncomputable section

/-- `calculate_moon_color` (lines 440-463): pick a base RGB bucket by
altitude, then scale by the phase intensity `0.6 + 0.4 * (phase / 100)`,
truncating and capping each channel at 255. -/
def calculate_moon_color (altitude phase : ℝ) : ℤ × ℤ × ℤ :=
  let base : ℤ × ℤ × ℤ :=
    if altitude > 45 then (230, 235, 255)
    else if altitude > 15 then (240, 245, 255)
    else if altitude > 0 then (250, 245, 235)
    else (255, 230, 200)
  let intensity := 0.6 + 0.4 * (phase / 100)
  (min 255 (pyInt (base.1 * intensity)),
   min 255 (pyInt (base.2.1 * intensity)),
   min 255 (pyInt (base.2.2 * intensity)))

/-- Alignment of every managed fixture against the moon azimuth, in fixture
configuration order (lines 246-249; the `light_directions` dict preserves
insertion order). -/
def moon_alignments (lights : List (String × ℝ)) (azimuth : ℝ) : List (String × ℝ) :=
  lights.map fun p => (p.1, calculate_azimuth_alignment p.2 azimuth)

/-- Stable descending insertion by the second component: the new element
passes every earlier element with a strictly greater key and stops before
the first element with an equal or smaller key. -/
def insertDesc {α β : Type} [LinearOrder β] (x : α × β) : List (α × β) → List (α × β)
  | [] => [x]
  | y :: ys => if y.2 > x.2 then y :: insertDesc x ys else x :: y :: ys

/-- Stable descending sort by the second component: the model of
`sorted(light_alignments.items(), key=lambda x: x[1], reverse=True)`
(line 252).  Python sorted is stable even with `reverse=True`, so elements
with equal keys keep their configuration order; any stable descending sort
computes the same list. -/
def sortDesc {α β : Type} [LinearOrder β] : List (α × β) → List (α × β)
  | [] => []
  | x :: xs => insertDesc x (sortDesc xs)

/-- The moon ranking: fixtures sorted by descending alignment (line 252). -/
def moon_sorted (lights : List (String × ℝ)) (azimuth : ℝ) : List (String × ℝ) :=
  sortDesc (moon_alignments lights azimuth)

/-- `lights_to_activate` (lines 253-259): of the top two ranked fixtures,
keep those with alignment strictly above 0.5. -/
def lights_to_activate (lights : List (String × ℝ)) (azimuth : ℝ) : List String :=
  (((moon_sorted lights azimuth).take 2).filter fun p => decide (p.2 > 0.5)).map Prod.fst

/-- `update_moon_lighting` (lines 226-279), humidity colour hint absent:
base brightness `int(255 * 0.6 * dimmer_level)`; activated fixtures turn on
with the shared RGB colour and base brightness, every other managed fixture
turns off. -/
def update_moon_lighting (lights : List (String × ℝ))
    (altitude azimuth phase dimmer : ℝ) : List (String × LightTarget) :=
  let rgb := calculate_moon_color altitude phase
  let base := pyInt (255 * 0.6 * dimmer)
  let act := lights_to_activate lights azimuth
  lights.map fun p =>
    (p.1,
      if p.1 ∈ act then LightTarget.on (ColorSpec.rgb rgb.1 rgb.2.1 rgb.2.2) base
      else LightTarget.off)

/-- Colour-blind view of a target: activation and brightness only. -/
def dropColor : LightTarget → Option ℤ
  | .on _ b => some b
  | .off => none

end

/-- Inserting permutes: `insertDesc x l` is `x :: l` up to order. -/
lemma insertDesc_perm {α β : Type} [LinearOrder β] (x : α × β) :
    ∀ l : List (α × β), (insertDesc x l).Perm (x :: l)
  | [] => List.Perm.refl _
  | y :: ys => by
    simp only [insertDesc]
    split_ifs with hgt
    · exact ((insertDesc_perm x ys).cons y).trans (List.Perm.swap x y ys)
    · exact List.Perm.refl _

/-- Sorting permutes: `sortDesc l` has the same elements as `l`. -/
lemma sortDesc_perm {α β : Type} [LinearOrder β] :
    ∀ l : List (α × β), (sortDesc l).Perm l
  | [] => List.Perm.refl _
  | x :: xs => (insertDesc_perm x (sortDesc xs)).trans ((sortDesc_perm xs).cons x)

/-- Key stability of insertion: restricted to any one key value, inserting
behaves exactly like consing, because the elements the new element passes
over all have strictly greater keys. -/
lemma insertDesc_filter {α β : Type} [LinearOrder β] (x : α × β) (v : β) :
    ∀ l : List (α × β),
      (insertDesc x l).filter (fun p => decide (p.2 = v))
        = ((x :: l).filter fun p => decide (p.2 = v))
  | [] => rfl
  | y :: ys => by
    simp only [insertDesc]
    split_ifs with hgt
    · have hrec := insertDesc_filter x v ys
      by_cases hy : y.2 = v
      · have hx : ¬ x.2 = v := by
          intro hx
          rw [hx, ← hy] at hgt
          exact lt_irrefl _ hgt
        simp only [List.filter_cons, hrec]
        simp [hx, hy]
      · simp only [List.filter_cons, hrec]
        simp [hy]
    · rfl

/-- Key stability of the sort: restricted to any one key value, sorting is
the identity, so equal-keyed elements keep their original order. -/
lemma sortDesc_filter {α β : Type} [LinearOrder β] (v : β) :
    ∀ l : List (α × β),
      (sortDesc l).filter (fun p => decide (p.2 = v))
        = l.filter (fun p => decide (p.2 = v))
  | [] => rfl
  | x :: xs => by
    simp only [sortDesc]
    rw [insertDesc_filter x v (sortDesc xs)]
    simp only [List.filter_cons, sortDesc_filter v xs]

/-- Alignment is 0 at 180 degrees separation (concrete instance). -/
lemma alignment_zero_at_180 : calculate_azimuth_alignment 0 180 = 0 := by
  have hdiff : |(0:ℝ) - 180| = 180 := by norm_num
  simp only [calculate_azimuth_alignment, hdiff]
  rw [if_neg (by norm_num)]
  have h : (180 : ℝ) * Real.pi / 180 = Real.pi := by ring
  rw [h, Real.cos_pi]
  rw [max_eq_left (by norm_num : (-1 + 1) / 2 ≤ (0:ℝ))]

/-- Claim C2: `update_moon_lighting` activates at most two fixtures,
activates none when every alignment is at most 0.5, commands every
non-activated managed fixture off, and activates exactly the fixtures that
hold a top-2 rank slot with alignment strictly above 0.5. -/
theorem claim_C2 (lights : List (String × ℝ)) (altitude azimuth phase dimmer : ℝ) :
    (lights_to_activate lights azimuth).length ≤ 2 ∧
    ((∀ p ∈ moon_alignments lights azimuth, p.2 ≤ 0.5) →
      lights_to_activate lights azimuth = []) ∧
    (∀ p ∈ lights, p.1 ∉ lights_to_activate lights azimuth →
      (p.1, LightTarget.off) ∈ update_moon_lighting lights altitude azimuth phase dimmer) ∧
    (∀ name, name ∈ lights_to_activate lights azimuth ↔
      ∃ p ∈ (moon_sorted lights azimuth).take 2, p.1 = name ∧ p.2 > 0.5) := by
  refine ⟨?_, ?_, ?_, ?_⟩
  · unfold lights_to_activate
    rw [List.length_map]
    refine le_trans (List.length_filter_le _ _) ?_
    rw [List.length_take]
    exact min_le_left 2 _
  · intro hall
    unfold lights_to_activate
    have hnil : ((moon_sorted lights azimuth).take 2).filter
        (fun p => decide (p.2 > 0.5)) = [] := by
      rw [List.filter_eq_nil_iff]
      intro p hp
      have hmem : p ∈ moon_alignments lights azimuth :=
        (sortDesc_perm _).mem_iff.mp (List.mem_of_mem_take hp)
      simp only [decide_eq_true_eq]
      exact not_lt.mpr (hall p hmem)
    rw [hnil]
    rfl
  · intro p hp hnot
    have : (p.1,
        if p.1 ∈ lights_to_activate lights azimuth then
          LightTarget.on (ColorSpec.rgb (calculate_moon_color altitude phase).1
            (calculate_moon_color altitude phase).2.1
            (calculate_moon_color altitude phase).2.2)
            (pyInt (255 * 0.6 * dimmer))
        else LightTarget.off) ∈
        update_moon_lighting lights altitude azimuth phase dimmer :=
      List.mem_map_of_mem _ hp
    rwa [if_neg hnot] at this
  · intro name
    unfold lights_to_activate
    simp only [List.mem_map, List.mem_filter, decide_eq_true_eq]
    constructor
    · rintro ⟨p, ⟨hp, hgt⟩, hname⟩
      exact ⟨p, hp, hname, hgt⟩
    · rintro ⟨p, hp, hname, hgt⟩
      exact ⟨p, ⟨hp, hgt⟩, hname⟩

/-- Witness for claim C2: a single north fixture with the moon due south has
alignment 0, so nothing activates. -/
theorem claim_C2_witness : lights_to_activate [("north", 0)] 180 = [] := by
  apply (claim_C2 [("north", 0)] 0 180 0 1).2.1
  intro p hp
  simp only [moon_alignments, List.map_cons, List.map_nil,
    List.mem_singleton] at hp
  rw [hp, alignment_zero_at_180]
  norm_num

/-- Claim C10: the moon altitude never gates activation.  Forgetting the
colour, `update_moon_lighting` is the same list for any two altitudes
(including below the horizon); and every activated fixture is commanded on
at any altitude whatsoever. -/
theorem claim_C10 (lights : List (String × ℝ)) (alt1 alt2 azimuth phase dimmer : ℝ) :
    ((update_moon_lighting lights alt1 azimuth phase dimmer).map
        fun p => (p.1, dropColor p.2))
      = ((update_moon_lighting lights alt2 azimuth phase dimmer).map
        fun p => (p.1, dropColor p.2)) ∧
    (∀ p ∈ lights, p.1 ∈ lights_to_activate lights azimuth →
      ∃ c b, (p.1, LightTarget.on c b) ∈
        update_moon_lighting lights alt1 azimuth phase dimmer) := by
  constructor
  · simp only [update_moon_lighting, List.map_map]
    apply List.map_congr_left
    intro p _
    by_cases h : p.1 ∈ lights_to_activate lights azimuth <;>
      simp [h, dropColor, Function.comp]
  · intro p hp hact
    have : (p.1,
        if p.1 ∈ lights_to_activate lights azimuth then
          LightTarget.on (ColorSpec.rgb (calculate_moon_color alt1 phase).1
            (calculate_moon_color alt1 phase).2.1
            (calculate_moon_color alt1 phase).2.2)
            (pyInt (255 * 0.6 * dimmer))
        else LightTarget.off) ∈
        update_moon_lighting lights alt1 azimuth phase dimmer :=
      List.mem_map_of_mem _ hp
    rw [if_pos hact] at this
    exact ⟨_, _, this⟩

/-- Witness for claim C10: a lone fixture aligned with the moon azimuth is
activated even with the moon 10 degrees below the horizon. -/
theorem claim_C10_witness :
    ∃ c b, (("a" : String), LightTarget.on c b) ∈
      update_moon_lighting [("a", 60)] (-10) 60 50 1 := by
  apply (claim_C10 [("a", 60)] (-10) 0 60 50 1).2 ("a", 60) (by simp)
  unfold lights_to_activate moon_sorted moon_alignments
  simp only [List.map_cons, List.map_nil, sortDesc, insertDesc, List.take,
    List.filter, alignment_self]
  rw [decide_eq_true (by norm_num : (1 : ℝ) > 0.5)]
  simp

/-- Claim C8: ties in alignment are broken by fixture configuration order.
Restricted to any one alignment value, the moon ranking lists fixtures in
configuration order; concretely, with fixtures a (aligned), b and c (both
at 60 degrees separation, alignment 3/4), the first-defined of b and c wins
the contested second rank slot, for either definition order. -/
theorem claim_C8 (lights : List (String × ℝ)) (azimuth v : ℝ) :
    ((moon_sorted lights azimuth).filter fun p => decide (p.2 = v))
      = ((moon_alignments lights azimuth).filter fun p => decide (p.2 = v)) ∧
    lights_to_activate [("a", 60), ("b", 0), ("c", 120)] 60 = ["a", "b"] ∧
    lights_to_activate [("a", 60), ("c", 120), ("b", 0)] 60 = ["a", "c"] := by
  refine ⟨sortDesc_filter v (moon_alignments lights azimuth), ?_, ?_⟩
  · have hab : moon_alignments [("a", 60), ("b", 0), ("c", 120)] 60
        = [("a", 1), ("b", 3 / 4), ("c", 3 / 4)] := by
      simp only [moon_alignments, List.map_cons, List.map_nil]
      rw [alignment_self, alignment_of_abs_sixty 0 60 (by norm_num),
        alignment_of_abs_sixty 120 60 (by norm_num)]
    unfold lights_to_activate moon_sorted
    rw [hab]
    simp only [sortDesc, insertDesc]
    rw [if_neg (by norm_num : ¬ ((("c" : String), (3:ℝ)/4).2 > (("b" : String), (3:ℝ)/4).2))]
    simp only [insertDesc]
    rw [if_neg (by norm_num : ¬ ((("b" : String), (3:ℝ)/4).2 > (("a" : String), (1:ℝ)).2))]
    simp only [List.take, List.filter_cons, List.filter_nil]
    rw [decide_eq_true (by norm_num : ((("a" : String), (1:ℝ)).2 > 0.5))]
    rw [decide_eq_true (by norm_num : ((("b" : String), (3:ℝ)/4).2 > 0.5))]
    simp
  · have hab : moon_alignments [("a", 60), ("c", 120), ("b", 0)] 60
        = [("a", 1), ("c", 3 / 4), ("b", 3 / 4)] := by
      simp only [moon_alignments, List.map_cons, List.map_nil]
      rw [alignment_self, alignment_of_abs_sixty 0 60 (by norm_num),
        alignment_of_abs_sixty 120 60 (by norm_num)]
    unfold lights_to_activate moon_sorted
    rw [hab]
    simp only [sortDesc, insertDesc]
    rw [if_neg (by norm_num : ¬ ((("b" : String), (3:ℝ)/4).2 > (("c" : String), (3:ℝ)/4).2))]
    simp only [insertDesc]
    rw [if_neg (by norm_num : ¬ ((("c" : String), (3:ℝ)/4).2 > (("a" : String), (1:ℝ)).2))]
    simp only [List.take, List.filter_cons, List.filter_nil]
    rw [decide_eq_true (by norm_num : ((("a" : String), (1:ℝ)).2 > 0.5))]
    rw [decide_eq_true (by norm_num : ((("c" : String), (3:ℝ)/4).2 > 0.5))]
    simp

noncomputable section

/-- Lighting modes, cycled sun to moon to off to sun (lines 499-503). -/
inductive Mode
  | sun
  | moon
  | off
  deriving DecidableEq

/-- Controller state: current mode, dimmer level (brightness multiplier)
and the manual-override flag (instance fields set in lines 32-36). -/
structure CState where
  mode : Mode
  dimmer : ℝ
  manual_override : Bool

/-- Startup state (lines 32-36): sun mode, dimmer 1.0, no override. -/
def initState : CState := ⟨Mode.sun, 1.0, false⟩

/-- The mode ring of `cycle_lighting_mode` (lines 500-503). -/
def cycle_mode : Mode → Mode
  | Mode.sun => Mode.moon
  | Mode.moon => Mode.off
  | Mode.off => Mode.sun

/-- `cycle_lighting_mode` (lines 499-523), state part: advance the mode
ring; when the manual-override flag is set, reset the dimmer to 1.0 and
clear the flag (lines 507-510). -/
def cycle_lighting_mode (s : CState) : CState :=
  if s.manual_override then ⟨cycle_mode s.mode, 1.0, false⟩
  else ⟨cycle_mode s.mode, s.dimmer, s.manual_override⟩

/-- `handle_dimmer_rotation` (lines 525-550), state part: ignore a zero
direction; otherwise set the override flag, step the dimmer by 0.05
clamped to `[0.1, 1.0]`, and snap to the 0.05 grid via
`round(dimmer * 20) / 20`. -/
def handle_dimmer_rotation (s : CState) (direction : ℤ) : CState :=
  if direction = 0 then s
  else
    let d := if direction > 0 then min 1.0 (s.dimmer + 0.05)
             else max 0.1 (s.dimmer - 0.05)
    ⟨s.mode, (pyRound (d * 20) : ℝ) / 20, true⟩

/-- Normalized controller events (`handle_aurora_event`, lines 479-497:
button release cycles the mode, rotation start steps the dimmer by
direction plus or minus one). -/
inductive Event
  | press
  | rotateCW
  | rotateCCW

/-- One controller event applied to the state. -/
def applyEvent (s : CState) : Event → CState
  | Event.press => cycle_lighting_mode s
  | Event.rotateCW => handle_dimmer_rotation s 1
  | Event.rotateCCW => handle_dimmer_rotation s (-1)

/-- The controller state after a sequence of events from startup. -/
def runEvents (evs : List Event) : CState :=
  evs.foldl applyEvent initState

/-- A controller state the running system can actually be in. -/
def Reachable (s : CState) : Prop := ∃ evs, runEvents evs = s

/-- Celestial inputs, read fresh on every decision cycle. -/
structure CelestialSample where
  sunElevation : ℝ
  sunAzimuth : ℝ
  moonAltitude : ℝ
  moonAzimuth : ℝ
  moonPhase : ℝ

/-- `update_lights` (lines 152-175): off mode establishes the off state on
every managed fixture (the source skips the service call for fixtures
already off, an idempotent no-op); sun and moon modes delegate to the two
target computations with the current dimmer level. -/
def update_lights (lights : List (String × ℝ)) (s : CState)
    (c : CelestialSample) : List (String × LightTarget) :=
  match s.mode with
  | Mode.off => lights.map fun p => (p.1, LightTarget.off)
  | Mode.sun => update_sun_lighting lights c.sunElevation c.sunAzimuth s.dimmer
  | Mode.moon =>
      update_moon_lighting lights c.moonAltitude c.moonAzimuth c.moonPhase s.dimmer

end

/-- Rounding a natural number is that number. -/
lemma pyRound_natCast (n : ℕ) : pyRound (n : ℝ) = n := by
  have h : ((n : ℝ)) = ((n : ℤ) : ℝ) := by push_cast; ring
  rw [h, pyRound_intCast]

/-- A counter-clockwise rotation from dimmer 1 lands on 0.95 with the
override flag set, whatever the mode. -/
lemma rotCCW_from_one (s : CState) (h : s.dimmer = 1) :
    handle_dimmer_rotation s (-1) = ⟨s.mode, 0.95, true⟩ := by
  simp only [handle_dimmer_rotation]
  rw [if_neg (by norm_num : ¬ (-1 : ℤ) = 0)]
  rw [if_neg (by norm_num : ¬ (-1 : ℤ) > 0)]
  rw [h]
  have hmax : max (0.1 : ℝ) (1 - 0.05) = 0.95 := by
    rw [max_eq_right (by norm_num)]
    norm_num
  rw [hmax]
  have h19 : (0.95 : ℝ) * 20 = ((19 : ℤ) : ℝ) := by norm_num
  rw [h19, pyRound_intCast]
  congr 1
  norm_num

/-- A press with the override flag clear keeps dimmer and flag. -/
lemma press_no_override (s : CState) (h : s.manual_override = false) :
    cycle_lighting_mode s = ⟨cycle_mode s.mode, s.dimmer, false⟩ := by
  simp only [cycle_lighting_mode]
  rw [if_neg (by simp [h]), h]

/-- A press with the override flag set resets the dimmer to 1.0. -/
lemma press_override (s : CState) (h : s.manual_override = true) :
    cycle_lighting_mode s = ⟨cycle_mode s.mode, 1.0, false⟩ := by
  simp only [cycle_lighting_mode]
  rw [if_pos h]

/-- Claim C4 fails as stated: after one counter-clockwise rotation the
state (dimmer 0.95, manual override set) is reachable, and a Press from it
resets the dimmer to 1.0 instead of leaving it unchanged. -/
theorem claim_C4_counterexample :
    ¬ ((applyEvent (runEvents [Event.rotateCCW]) Event.press).dimmer
        = (runEvents [Event.rotateCCW]).dimmer) := by
  have h1 : runEvents [Event.rotateCCW] = ⟨Mode.sun, 0.95, true⟩ := by
    show handle_dimmer_rotation initState (-1) = _
    rw [rotCCW_from_one initState (by norm_num [initState])]
    rfl
  rw [h1]
  show (cycle_lighting_mode ⟨Mode.sun, 0.95, true⟩).dimmer ≠ _
  rw [press_override _ rfl]
  norm_num

/-- Claim C4 amended: a Press advances the mode ring; it leaves the
brightness multiplier unchanged when no rotation has occurred since the
last mode change or startup (manual-override flag clear), and resets it to
1.0 (clearing the flag) when a rotation has set the flag. -/
theorem claim_C4_amended (s : CState) (h : Reachable s) :
    (applyEvent s Event.press).mode = cycle_mode s.mode ∧
    (s.manual_override = false → (applyEvent s Event.press).dimmer = s.dimmer) ∧
    (s.manual_override = true → (applyEvent s Event.press).dimmer = 1) := by
  refine ⟨?_, ?_, ?_⟩
  · show (cycle_lighting_mode s).mode = _
    unfold cycle_lighting_mode
    split_ifs <;> rfl
  · intro hmo
    show (cycle_lighting_mode s).dimmer = _
    rw [press_no_override s hmo]
  · intro hmo
    show (cycle_lighting_mode s).dimmer = _
    rw [press_override s hmo]
    norm_num

/-- Witness for claim C4 (amended): from the startup state (override flag
clear) a Press moves to moon mode and keeps the dimmer. -/
theorem claim_C4_witness :
    (applyEvent initState Event.press).mode = Mode.moon ∧
    (applyEvent initState Event.press).dimmer = initState.dimmer := by
  obtain ⟨h1, h2, _⟩ := claim_C4_amended initState ⟨[], rfl⟩
  exact ⟨by rw [h1]; rfl, h2 rfl⟩

/-- One rotation step on a grid dimmer value `k * 0.05`: clockwise lands on
`min 20 (k+1)` twentieths, counter-clockwise on `max 2 (k-1)` twentieths. -/
lemma rotation_dimmer_step (s : CState) (k : ℕ) (h2 : 2 ≤ k) (h20 : k ≤ 20)
    (hd : s.dimmer = k * 0.05) :
    (handle_dimmer_rotation s 1).dimmer = (min 20 (k + 1) : ℕ) * 0.05 ∧
    (handle_dimmer_rotation s (-1)).dimmer = (max 2 (k - 1) : ℕ) * 0.05 := by
  constructor
  · simp only [handle_dimmer_rotation]
    rw [if_neg (by norm_num : ¬ (1 : ℤ) = 0)]
    rw [if_pos (by norm_num : (1 : ℤ) > 0)]
    rw [hd]
    rcases Nat.lt_or_ge k 20 with hlt | hge
    · have hle : (k : ℝ) * 0.05 + 0.05 ≤ 1.0 := by
        have : (k : ℝ) ≤ 19 := by exact_mod_cast Nat.le_of_lt_succ hlt
        norm_num
        linarith
      rw [min_eq_right hle]
      have hcast : ((k : ℝ) * 0.05 + 0.05) * 20 = ((k + 1 : ℕ) : ℝ) := by
        push_cast
        ring
      rw [hcast, pyRound_natCast]
      rw [Nat.min_eq_right (by omega : k + 1 ≤ 20)] at *
      push_cast
      ring
    · have hk : k = 20 := le_antisymm h20 hge
      subst hk
      have hge1 : (1.0 : ℝ) ≤ (20 : ℕ) * 0.05 + 0.05 := by norm_num
      rw [min_eq_left hge1]
      have hcast : (1.0 : ℝ) * 20 = ((20 : ℕ) : ℝ) := by norm_num
      rw [hcast, pyRound_natCast]
      norm_num
  · simp only [handle_dimmer_rotation]
    rw [if_neg (by norm_num : ¬ (-1 : ℤ) = 0)]
    rw [if_neg (by norm_num : ¬ (-1 : ℤ) > 0)]
    rw [hd]
    rcases Nat.lt_or_ge 2 k with hlt | hge
    · have hle : (0.1 : ℝ) ≤ (k : ℝ) * 0.05 - 0.05 := by
        have : (3 : ℝ) ≤ k := by exact_mod_cast hlt
        norm_num
        linarith
      rw [max_eq_right hle]
      have hcast : ((k : ℝ) * 0.05 - 0.05) * 20 = ((k - 1 : ℕ) : ℝ) := by
        have : ((k - 1 : ℕ) : ℝ) = (k : ℝ) - 1 := by
          rw [Nat.cast_sub (by omega)]
          norm_num
        rw [this]
        ring
      rw [hcast, pyRound_natCast]
      rw [Nat.max_eq_right (by omega : 2 ≤ k - 1)]
      push_cast [Nat.cast_sub (by omega : 1 ≤ k)]
      ring
    · have hk : k = 2 := le_antisymm hge h2
      subst hk
      have hge1 : (2 : ℕ) * (0.05 : ℝ) - 0.05 ≤ 0.1 := by norm_num
      rw [max_eq_left hge1]
      have hcast : (0.1 : ℝ) * 20 = ((2 : ℕ) : ℝ) := by norm_num
      rw [hcast, pyRound_natCast]
      norm_num

/-- The dimmer invariant is preserved by every controller event. -/
lemma dimmer_grid_applyEvent (s : CState) (e : Event)
    (h : ∃ k : ℕ, 2 ≤ k ∧ k ≤ 20 ∧ s.dimmer = k * 0.05) :
    ∃ k : ℕ, 2 ≤ k ∧ k ≤ 20 ∧ (applyEvent s e).dimmer = k * 0.05 := by
  obtain ⟨k, h2, h20, hd⟩ := h
  cases e with
  | press =>
    show ∃ m : ℕ, 2 ≤ m ∧ m ≤ 20 ∧ (cycle_lighting_mode s).dimmer = m * 0.05
    unfold cycle_lighting_mode
    split_ifs
    · exact ⟨20, by norm_num, by norm_num, by norm_num⟩
    · exact ⟨k, h2, h20, hd⟩
  | rotateCW =>
    obtain ⟨hcw, _⟩ := rotation_dimmer_step s k h2 h20 hd
    exact ⟨min 20 (k + 1), by omega, by omega, hcw⟩
  | rotateCCW =>
    obtain ⟨_, hccw⟩ := rotation_dimmer_step s k h2 h20 hd
    exact ⟨max 2 (k - 1), by omega, by omega, hccw⟩

/-- The dimmer invariant holds along any event sequence. -/
lemma dimmer_grid_foldl :
    ∀ (evs : List Event) (s : CState),
      (∃ k : ℕ, 2 ≤ k ∧ k ≤ 20 ∧ s.dimmer = k * 0.05) →
      ∃ k : ℕ, 2 ≤ k ∧ k ≤ 20 ∧ (evs.foldl applyEvent s).dimmer = k * 0.05
  | [], _, h => h
  | e :: evs, s, h => dimmer_grid_foldl evs _ (dimmer_grid_applyEvent s e h)

/-- Claim C5: from the initial multiplier 1.0, after any event sequence the
multiplier is a multiple of 0.05 in `[0.1, 1.0]`; a clockwise rotation at
1.0 saturates at 1.0 and a counter-clockwise rotation at 0.1 saturates at
0.1 (never rejected). -/
theorem claim_C5 :
    (∀ evs : List Event,
      (∃ k : ℕ, 2 ≤ k ∧ k ≤ 20 ∧ (runEvents evs).dimmer = k * 0.05) ∧
      0.1 ≤ (runEvents evs).dimmer ∧ (runEvents evs).dimmer ≤ 1) ∧
    (∀ s : CState, s.dimmer = 1 → (handle_dimmer_rotation s 1).dimmer = 1) ∧
    (∀ s : CState, s.dimmer = 0.1 → (handle_dimmer_rotation s (-1)).dimmer = 0.1) := by
  refine ⟨?_, ?_, ?_⟩
  · intro evs
    have hinv := dimmer_grid_foldl evs initState
      ⟨20, by norm_num, by norm_num, by norm_num [initState]⟩
    refine ⟨hinv, ?_, ?_⟩
    · obtain ⟨k, h2, _, hd⟩ := hinv
      unfold runEvents
      rw [hd]
      have : (2 : ℝ) ≤ k := by exact_mod_cast h2
      nlinarith
    · obtain ⟨k, _, h20, hd⟩ := hinv
      unfold runEvents
      rw [hd]
      have : (k : ℝ) ≤ 20 := by exact_mod_cast h20
      nlinarith
  · intro s hs
    have := (rotation_dimmer_step s 20 (by norm_num) (by norm_num)
      (by rw [hs]; norm_num)).1
    rw [this]
    norm_num
  · intro s hs
    have := (rotation_dimmer_step s 2 (by norm_num) (by norm_num)
      (by rw [hs]; norm_num)).2
    rw [this]
    norm_num

/-- Witness for claim C5 at the empty event sequence and the startup
state: the invariant holds initially and clockwise rotation saturates. -/
theorem claim_C5_witness :
    (∃ k : ℕ, 2 ≤ k ∧ k ≤ 20 ∧ (runEvents []).dimmer = k * 0.05) ∧
    (handle_dimmer_rotation initState 1).dimmer = 1 :=
  ⟨(claim_C5.1 []).1, claim_C5.2.1 initState (by norm_num [initState])⟩

/-- Claim C9 fails in its last clause: rotating counter-clockwise while Off
does update the multiplier (0.95, reachable, mode still Off), but the next
mode switch discards the pending change: the rotation set the
manual-override flag, so the Press resets the multiplier to 1.0 instead of
letting 0.95 take effect. -/
theorem claim_C9_counterexample :
    (runEvents [Event.press, Event.press, Event.rotateCCW]).mode = Mode.off ∧
    (runEvents [Event.press, Event.press, Event.rotateCCW]).dimmer = 0.95 ∧
    (runEvents [Event.press, Event.press, Event.rotateCCW, Event.press]).dimmer
      ≠ 0.95 := by
  have e1 : applyEvent initState Event.press = ⟨Mode.moon, 1.0, false⟩ := by
    show cycle_lighting_mode initState = _
    rw [press_no_override initState rfl]
    rfl
  have e2 : applyEvent ⟨Mode.moon, 1.0, false⟩ Event.press = ⟨Mode.off, 1.0, false⟩ := by
    show cycle_lighting_mode _ = _
    rw [press_no_override _ rfl]
    rfl
  have e3 : applyEvent ⟨Mode.off, 1.0, false⟩ Event.rotateCCW
      = ⟨Mode.off, 0.95, true⟩ := by
    show handle_dimmer_rotation _ (-1) = _
    rw [rotCCW_from_one _ (by norm_num)]
  have e4 : applyEvent ⟨Mode.off, 0.95, true⟩ Event.press = ⟨Mode.sun, 1.0, false⟩ := by
    show cycle_lighting_mode _ = _
    rw [press_override _ rfl]
    rfl
  have h3 : runEvents [Event.press, Event.press, Event.rotateCCW]
      = ⟨Mode.off, 0.95, true⟩ := by
    show applyEvent (applyEvent (applyEvent initState Event.press) Event.press)
      Event.rotateCCW = _
    rw [e1, e2, e3]
  have h4 : runEvents [Event.press, Event.press, Event.rotateCCW, Event.press]
      = ⟨Mode.sun, 1.0, false⟩ := by
    show applyEvent (applyEvent (applyEvent (applyEvent initState Event.press)
      Event.press) Event.rotateCCW) Event.press = _
    rw [e1, e2, e3, e4]
  rw [h3, h4]
  refine ⟨rfl, rfl, ?_⟩
  norm_num

/-- Claim C9 amended: in Off mode rotation events still update the
multiplier by the normal step-clamp-round rule (the dimmer update is
mode-independent); the sun and moon target computations are not consulted
— the output is all-off whatever the celestial sample — but the pending
multiplier change does not take effect on the next mode switch: the
rotation set the manual-override flag, so the next Press resets the
multiplier to 1.0. -/
theorem claim_C9_amended (lights : List (String × ℝ)) (s : CState)
    (c1 c2 : CelestialSample) (dir : ℤ) (hoff : s.mode = Mode.off) :
    ((handle_dimmer_rotation s dir).dimmer
      = (handle_dimmer_rotation ⟨Mode.sun, s.dimmer, s.manual_override⟩ dir).dimmer) ∧
    update_lights lights s c1 = lights.map (fun p => (p.1, LightTarget.off)) ∧
    update_lights lights s c1 = update_lights lights s c2 ∧
    (s.manual_override = true → (applyEvent s Event.press).dimmer = 1) := by
  have hmap : ∀ c : CelestialSample,
      update_lights lights s c = lights.map fun p => (p.1, LightTarget.off) := by
    intro c
    unfold update_lights
    rw [hoff]
  refine ⟨?_, hmap c1, by rw [hmap c1, hmap c2], ?_⟩
  · simp only [handle_dimmer_rotation]
    split_ifs <;> rfl
  · intro hmo
    show (cycle_lighting_mode s).dimmer = _
    rw [press_override s hmo]
    norm_num

/-- Witness for claim C9 (amended): a single off-mode state with the
override flag set commands its one fixture off and resets to 1.0 on the
next Press. -/
theorem claim_C9_witness :
    update_lights [("n", 0)] ⟨Mode.off, 1, true⟩ ⟨0, 0, 0, 0, 0⟩
      = [("n", LightTarget.off)] ∧
    (applyEvent ⟨Mode.off, 1, true⟩ Event.press).dimmer = 1 := by
  obtain ⟨_, h2, _, h4⟩ := claim_C9_amended [("n", 0)] ⟨Mode.off, 1, true⟩
    ⟨0, 0, 0, 0, 0⟩ ⟨0, 0, 0, 0, 0⟩ 1 rfl
  exact ⟨by rw [h2]; rfl, h4 rfl⟩

end Celestial
